import Mathlib

/-
  Verification of the clock-learning application core
  (time generation, answer validation, formatting).

  The definitions below are a shallow embedding of the JavaScript sources
  `src/js/time-generator.js`, `src/js/answer-validator.js` and the
  DifficultyManager tier table.  JavaScript numbers that are always
  integers in the source are modelled as Nat or Int; `Math.floor
  (Math.random() * n)` is modelled as reading a draw from an abstract
  stream of naturals and reducing it modulo n, so that every possible
  behaviour of the random source corresponds to some stream.
-/

/-- A time value as produced by the generator and consumed by the
validator: plain record of hours, minutes, seconds. -/
structure ClockTime where
  hours : Nat
  minutes : Nat
  seconds : Nat
deriving DecidableEq, Repr

/-- Stream of raw draws from the random source.  Draw number k yields
`s k`, and the JavaScript idiom `Math.floor(Math.random() * n)` is
modelled as `s k % n`, which ranges over exactly the values 0..n-1. -/
def RandStream : Type := Nat → Nat

/-- Time-generation configuration of a difficulty tier
(`timeConfig` in the DifficultyManager).  `secondsFixed = none`
models the JavaScript values `null`/`undefined`. -/
structure TimeConfig where
  includeHours : Bool
  includeMinutes : Bool
  includeSeconds : Bool
  minuteInterval : Nat
  secondsFixed : Option Nat
deriving DecidableEq, Repr

/-- The five difficulty tiers of `DifficultyManager.initializeDifficulties`.
An invalid level is reset to level 1 by `getDifficulty`, hence the
default branch returns the 1-star configuration. -/
def difficultyTimeConfig (level : Nat) : TimeConfig :=
  match level with
  | 1 => ⟨true, true, true, 60, some 0⟩
  | 2 => ⟨true, true, true, 30, some 0⟩
  | 3 => ⟨true, true, true, 5, some 0⟩
  | 4 => ⟨true, true, true, 1, some 0⟩
  | 5 => ⟨true, true, true, 1, none⟩
  | _ => ⟨true, true, true, 60, some 0⟩

/-- Model of `generateHour`: `Math.floor(Math.random() * 12) + 1`, with `r` the
raw draw from the random source. -/
def generateHour (r : Nat) : Nat :=
  r % 12 + 1

/-- Model of `generateMinute`: switch on the minute interval of the active
configuration.  The draw `r` feeds the single `Math.random()` call of
the taken branch (`Math.random() < 0.5` is modelled as `r % 2 = 0`).
The JavaScript `case 1` shares the `default` branch. -/
def generateMinute (config : TimeConfig) (r : Nat) : Nat :=
  if !config.includeMinutes then 0
  else
    match config.minuteInterval with
    | 60 => 0
    | 30 => if r % 2 = 0 then 0 else 30
    | 5 => (r % 12) * 5
    | _ => r % 60

/-- Model of `generateSecond`: 0 when seconds are excluded, the fixed value when
`secondsFixed` is set (not null/undefined), otherwise a random draw
0..59. -/
def generateSecond (config : TimeConfig) (r : Nat) : Nat :=
  if !config.includeSeconds then 0
  else
    match config.secondsFixed with
    | some v => v
    | none => r % 60

/-- One iteration body of the `do` loop in `generateTime`: attempt
number `k` (0-based) draws hour, minute and second, consuming the
stream positions 3k, 3k+1, 3k+2. -/
def drawTime (config : TimeConfig) (s : RandStream) (k : Nat) : ClockTime :=
  { hours := generateHour (s (3 * k))
  , minutes := generateMinute config (s (3 * k + 1))
  , seconds := generateSecond config (s (3 * k + 2)) }

/-- Model of `isSameTime`: field-wise comparison; `false` when the previous time
is null (`!time2` guard in the source — the freshly drawn first
argument is never null). -/
def isSameTime (time1 : ClockTime) (time2 : Option ClockTime) : Bool :=
  match time2 with
  | none => false
  | some t2 =>
    time1.hours == t2.hours && time1.minutes == t2.minutes && time1.seconds == t2.seconds

/-- The constant `maxAttempts = 50` of `generateTime`. -/
def maxAttempts : Nat := 50

/-- The `do ... while (isSameTime(time, last) && attempts < maxAttempts)`
loop of `generateTime`, entered having already performed `attempts`
draws.  Returns the accepted time together with the total number of
draws performed (the final value of the `attempts` counter). -/
def generateTimeLoop (config : TimeConfig) (prev : Option ClockTime) (s : RandStream)
    (attempts : Nat) : ClockTime × Nat :=
  if isSameTime (drawTime config s attempts) prev && decide (attempts + 1 < maxAttempts) then
    generateTimeLoop config prev s (attempts + 1)
  else
    (drawTime config s attempts, attempts + 1)
termination_by maxAttempts - attempts
decreasing_by
  simp only [Bool.and_eq_true, decide_eq_true_eq, maxAttempts] at *
  omega

/-- Model of `generateTime`: run the draw loop starting from zero attempts.  The
second component records how many draws were performed. -/
def generateTime (config : TimeConfig) (prev : Option ClockTime) (s : RandStream) :
    ClockTime × Nat :=
  generateTimeLoop config prev s 0

/-- Characterization of the draw loop: starting below the attempt bound,
it stops after between `attempts + 1` and `maxAttempts` draws, returns
the last time drawn, only returns a duplicate of `prev` when the bound
was reached, and every non-final draw was a duplicate of `prev`. -/
theorem generateTimeLoop_char (config : TimeConfig) (prev : Option ClockTime) (s : RandStream) :
    ∀ (d attempts : Nat), maxAttempts - attempts ≤ d → attempts < maxAttempts →
      attempts < (generateTimeLoop config prev s attempts).2 ∧
      (generateTimeLoop config prev s attempts).2 ≤ maxAttempts ∧
      (generateTimeLoop config prev s attempts).1
        = drawTime config s ((generateTimeLoop config prev s attempts).2 - 1) ∧
      (isSameTime (generateTimeLoop config prev s attempts).1 prev = true →
        (generateTimeLoop config prev s attempts).2 = maxAttempts) ∧
      (∀ k, attempts ≤ k → k + 1 < (generateTimeLoop config prev s attempts).2 →
        isSameTime (drawTime config s k) prev = true) := by
  intro d
  induction d with
  | zero =>
    intro attempts hd hlt
    omega
  | succ d ih =>
    intro attempts hd hlt
    rw [generateTimeLoop]
    split
    next hc =>
      simp only [Bool.and_eq_true, decide_eq_true_eq] at hc
      obtain ⟨h1, h2, h3, h4, h5⟩ := ih (attempts + 1) (by omega) hc.2
      refine ⟨by omega, h2, h3, h4, ?_⟩
      intro k hk hk2
      rcases Nat.eq_or_lt_of_le hk with h | h
      · rw [← h]; exact hc.1
      · exact h5 k h hk2
    next hc =>
      simp only [Bool.and_eq_true, decide_eq_true_eq, not_and] at hc
      refine ⟨by show attempts < attempts + 1; omega, ?_, by simp, ?_, ?_⟩
      · show attempts + 1 ≤ maxAttempts
        omega
      · intro hsame
        have h2 := hc hsame
        show attempts + 1 = maxAttempts
        simp only [maxAttempts] at hlt h2 ⊢
        omega
      · intro k hk hk2
        have hlt2 : k + 1 < attempts + 1 := hk2
        omega

/-- Range facts about a single draw, per difficulty tier: hours in 1..12;
minutes 0 at interval 60, 0 or 30 at interval 30, a multiple of 5 up to
55 at interval 5, up to 59 at interval 1; seconds 0 when fixed and up to
59 when drawn. -/
theorem drawTime_tier_ranges (level : Nat) (hl : 1 ≤ level) (hu : level ≤ 5)
    (s : RandStream) (k : Nat) :
    1 ≤ (drawTime (difficultyTimeConfig level) s k).hours ∧
    (drawTime (difficultyTimeConfig level) s k).hours ≤ 12 ∧
    ((difficultyTimeConfig level).minuteInterval = 60 →
      (drawTime (difficultyTimeConfig level) s k).minutes = 0) ∧
    ((difficultyTimeConfig level).minuteInterval = 30 →
      ((drawTime (difficultyTimeConfig level) s k).minutes = 0 ∨
        (drawTime (difficultyTimeConfig level) s k).minutes = 30)) ∧
    ((difficultyTimeConfig level).minuteInterval = 5 →
      ((drawTime (difficultyTimeConfig level) s k).minutes % 5 = 0 ∧
        (drawTime (difficultyTimeConfig level) s k).minutes ≤ 55)) ∧
    ((difficultyTimeConfig level).minuteInterval = 1 →
      (drawTime (difficultyTimeConfig level) s k).minutes ≤ 59) ∧
    ((difficultyTimeConfig level).secondsFixed = some 0 →
      (drawTime (difficultyTimeConfig level) s k).seconds = 0) ∧
    ((difficultyTimeConfig level).secondsFixed = none →
      (drawTime (difficultyTimeConfig level) s k).seconds ≤ 59) := by
  interval_cases level <;>
    refine ⟨?_, ?_, ?_, ?_, ?_, ?_, ?_, ?_⟩ <;>
      simp [difficultyTimeConfig, drawTime, generateHour, generateMinute, generateSecond] <;>
      omega

/-- C1: for every difficulty tier and every random stream, `generateTime`
returns hours in [1,12], minutes satisfying the tier minute granularity
(60 gives 0; 30 gives 0 or 30; 5 gives a multiple of 5 at most 55;
1 gives at most 59), and seconds 0 when the tier fixes seconds and at
most 59 otherwise. -/
theorem generateTime_tier_ranges (level : Nat) (hl : 1 ≤ level) (hu : level ≤ 5)
    (prev : Option ClockTime) (s : RandStream) :
    1 ≤ (generateTime (difficultyTimeConfig level) prev s).1.hours ∧
    (generateTime (difficultyTimeConfig level) prev s).1.hours ≤ 12 ∧
    ((difficultyTimeConfig level).minuteInterval = 60 →
      (generateTime (difficultyTimeConfig level) prev s).1.minutes = 0) ∧
    ((difficultyTimeConfig level).minuteInterval = 30 →
      ((generateTime (difficultyTimeConfig level) prev s).1.minutes = 0 ∨
        (generateTime (difficultyTimeConfig level) prev s).1.minutes = 30)) ∧
    ((difficultyTimeConfig level).minuteInterval = 5 →
      ((generateTime (difficultyTimeConfig level) prev s).1.minutes % 5 = 0 ∧
        (generateTime (difficultyTimeConfig level) prev s).1.minutes ≤ 55)) ∧
    ((difficultyTimeConfig level).minuteInterval = 1 →
      (generateTime (difficultyTimeConfig level) prev s).1.minutes ≤ 59) ∧
    ((difficultyTimeConfig level).secondsFixed = some 0 →
      (generateTime (difficultyTimeConfig level) prev s).1.seconds = 0) ∧
    ((difficultyTimeConfig level).secondsFixed = none →
      (generateTime (difficultyTimeConfig level) prev s).1.seconds ≤ 59) := by
  obtain ⟨h1, h2, h3, h4, h5⟩ :=
    generateTimeLoop_char (difficultyTimeConfig level) prev s maxAttempts 0
      (Nat.sub_le _ _) (by decide)
  simp only [generateTime]
  rw [h3]
  exact drawTime_tier_ranges level hl hu s _

/-- Witness for C1 at tier 3 with the constant-zero stream. -/
theorem generateTime_tier_ranges_witness :
    1 ≤ 3 ∧ 3 ≤ 5 ∧
    (1 ≤ (generateTime (difficultyTimeConfig 3) none (fun _ => 0)).1.hours ∧
    (generateTime (difficultyTimeConfig 3) none (fun _ => 0)).1.hours ≤ 12 ∧
    ((difficultyTimeConfig 3).minuteInterval = 60 →
      (generateTime (difficultyTimeConfig 3) none (fun _ => 0)).1.minutes = 0) ∧
    ((difficultyTimeConfig 3).minuteInterval = 30 →
      ((generateTime (difficultyTimeConfig 3) none (fun _ => 0)).1.minutes = 0 ∨
        (generateTime (difficultyTimeConfig 3) none (fun _ => 0)).1.minutes = 30)) ∧
    ((difficultyTimeConfig 3).minuteInterval = 5 →
      ((generateTime (difficultyTimeConfig 3) none (fun _ => 0)).1.minutes % 5 = 0 ∧
        (generateTime (difficultyTimeConfig 3) none (fun _ => 0)).1.minutes ≤ 55)) ∧
    ((difficultyTimeConfig 3).minuteInterval = 1 →
      (generateTime (difficultyTimeConfig 3) none (fun _ => 0)).1.minutes ≤ 59) ∧
    ((difficultyTimeConfig 3).secondsFixed = some 0 →
      (generateTime (difficultyTimeConfig 3) none (fun _ => 0)).1.seconds = 0) ∧
    ((difficultyTimeConfig 3).secondsFixed = none →
      (generateTime (difficultyTimeConfig 3) none (fun _ => 0)).1.seconds ≤ 59)) :=
  ⟨by decide, by decide,
    generateTime_tier_ranges 3 (by decide) (by decide) none (fun _ => 0)⟩

/-- C2: `generateTime` always terminates with a `ClockTime`, performing
between 1 and 50 draws; the returned time is the last draw; a time
field-wise equal to the previous one is only returned after the 50th
draw; and every draw before the accepted one duplicated the previous
time. -/
theorem generateTime_terminates_within_50 (config : TimeConfig) (prev : Option ClockTime)
    (s : RandStream) :
    1 ≤ (generateTime config prev s).2 ∧
    (generateTime config prev s).2 ≤ 50 ∧
    (generateTime config prev s).1 = drawTime config s ((generateTime config prev s).2 - 1) ∧
    (isSameTime (generateTime config prev s).1 prev = true →
      (generateTime config prev s).2 = 50) ∧
    (∀ k, k + 1 < (generateTime config prev s).2 →
      isSameTime (drawTime config s k) prev = true) := by
  obtain ⟨h1, h2, h3, h4, h5⟩ :=
    generateTimeLoop_char config prev s maxAttempts 0 (Nat.sub_le _ _) (by decide)
  exact ⟨h1, h2, h3, h4, fun k hk => h5 k (Nat.zero_le k) hk⟩

/-- Witness for C2 at tier 1 with the constant-zero stream. -/
theorem generateTime_terminates_within_50_witness :
    1 ≤ (generateTime (difficultyTimeConfig 1) none (fun _ => 0)).2 ∧
    (generateTime (difficultyTimeConfig 1) none (fun _ => 0)).2 ≤ 50 ∧
    (generateTime (difficultyTimeConfig 1) none (fun _ => 0)).1 =
      drawTime (difficultyTimeConfig 1) (fun _ => 0)
        ((generateTime (difficultyTimeConfig 1) none (fun _ => 0)).2 - 1) ∧
    (isSameTime (generateTime (difficultyTimeConfig 1) none (fun _ => 0)).1 none = true →
      (generateTime (difficultyTimeConfig 1) none (fun _ => 0)).2 = 50) ∧
    (∀ k, k + 1 < (generateTime (difficultyTimeConfig 1) none (fun _ => 0)).2 →
      isSameTime (drawTime (difficultyTimeConfig 1) (fun _ => 0) k) none = true) :=
  generateTime_terminates_within_50 (difficultyTimeConfig 1) none (fun _ => 0)

/-- Whitespace characters removed by the JavaScript string trim. -/
def isJsWhitespace (c : Char) : Bool :=
  c = ' ' || c = '\t' || c = '\n' || c = '\r' || c = '\x0b' || c = '\x0c'

/-- The JavaScript string trim: drop whitespace at both ends. -/
def trimChars (l : List Char) : List Char :=
  ((l.dropWhile isJsWhitespace).reverse.dropWhile isJsWhitespace).reverse

/-- Decimal digit test. -/
def isDigitChar (c : Char) : Bool := '0' ≤ c && c ≤ '9'

/-- Numeric value of a digit character. -/
def digitVal (c : Char) : Nat := c.toNat - '0'.toNat

/-- Longest prefix consisting of decimal digits. -/
def takeDigits : List Char → List Char
  | [] => []
  | c :: cs => if isDigitChar c then c :: takeDigits cs else []

/-- Decimal value of a digit string, most significant digit first. -/
def digitsToNat (l : List Char) : Nat :=
  l.foldl (fun acc c => 10 * acc + digitVal c) 0

/-- Digit part of `parseInt(s, 10)` after the optional sign: the longest
leading run of decimal digits; `none` models NaN (no digits at all). -/
def parseIntDigits (l : List Char) : Option Nat :=
  match takeDigits l with
  | [] => none
  | ds => some (digitsToNat ds)

/-- Model of `parseInt(s, 10)` on an already-trimmed string: one optional sign
followed by the longest run of decimal digits; `none` models NaN. -/
def parseIntJS (l : List Char) : Option Int :=
  match l with
  | '-' :: rest => (parseIntDigits rest).map (fun n => -(n : Int))
  | '+' :: rest => (parseIntDigits rest).map (fun n => (n : Int))
  | _ => (parseIntDigits l).map (fun n => (n : Int))

/-- A raw field input as accepted by the validator: a string, a number
(JavaScript numbers that are integers; a number with a fractional part
reaches the parser through the decimal string that `String()` prints
for it, e.g. "3.7"), null, or undefined. -/
inductive RawInput where
  | str : String → RawInput
  | num : Int → RawInput
  | null : RawInput
  | undefined : RawInput
deriving DecidableEq, Repr

/-- The JavaScript `String(input)` conversion. -/
def jsString : RawInput → List Char
  | .str s => s.data
  | .num n => (toString n).data
  | .null => "null".data
  | .undefined => "undefined".data

/-- Result record of `parseIndividualInput`. -/
structure ParsedInput where
  value : Int
  isEmpty : Bool
  isValid : Bool
  originalInput : RawInput
deriving DecidableEq, Repr

/-- Model of `parseIndividualInput`: null, undefined and (possibly after trimming)
empty strings are empty and count as 0; input that does not parse as a
number is invalid and counts as 0; otherwise the `parseInt` value is
returned.  The `fieldName` parameter is kept from the source, where it
is likewise unused. -/
def parseIndividualInput (input : RawInput) (fieldName : String) : ParsedInput :=
  match input with
  | .null => { value := 0, isEmpty := true, isValid := true, originalInput := input }
  | .undefined => { value := 0, isEmpty := true, isValid := true, originalInput := input }
  | _ =>
    if input = .str "" then
      { value := 0, isEmpty := true, isValid := true, originalInput := input }
    else
      if trimChars (jsString input) = [] then
        { value := 0, isEmpty := true, isValid := true, originalInput := input }
      else
        match parseIntJS (trimChars (jsString input)) with
        | none => { value := 0, isEmpty := false, isValid := false, originalInput := input }
        | some v => { value := v, isEmpty := false, isValid := true, originalInput := input }

/-- A structured field error of `parseSeparateTimeInputs`. -/
structure FieldError where
  field : String
  message : String
  value : Int
deriving DecidableEq, Repr

/-- A structured field warning of `parseSeparateTimeInputs`. -/
structure FieldWarning where
  field : String
  message : String
deriving DecidableEq, Repr

/-- Result record of `parseSeparateTimeInputs`. -/
structure SeparateParseResult where
  isValid : Bool
  time : Option ClockTime
  errors : List FieldError
  warnings : List FieldWarning
deriving DecidableEq, Repr

/-- The three range checks of `parseSeparateTimeInputs`, in source
order; each failing check pushes one structured error naming the field,
a message, and the offending value. -/
def rangeErrors (hoursVal minutesVal secondsVal : Int) : List FieldError :=
  (if hoursVal < 0 ∨ hoursVal > 12 then [⟨"hours", "小时必须在0-12范围内", hoursVal⟩] else []) ++
  (if minutesVal < 0 ∨ minutesVal > 59 then [⟨"minutes", "分钟必须在0-59范围内", minutesVal⟩] else []) ++
  (if secondsVal < 0 ∨ secondsVal > 59 then [⟨"seconds", "秒数必须在0-59范围内", secondsVal⟩] else [])

/-- The three empty-input warnings of `parseSeparateTimeInputs`, in
source order. -/
def emptyWarnings (hoursEmpty minutesEmpty secondsEmpty : Bool) : List FieldWarning :=
  (if hoursEmpty then [⟨"hours", "小时输入为空，按0处理"⟩] else []) ++
  (if minutesEmpty then [⟨"minutes", "分钟输入为空，按0处理"⟩] else []) ++
  (if secondsEmpty then [⟨"seconds", "秒数输入为空，按0处理"⟩] else [])

/-- Model of `parseSeparateTimeInputs`: parse the three fields, collect range
errors and empty-field warnings, and when there is no error assemble
the time, normalizing hour 0 to 12.  In the error-free branch all three
values passed their range checks and are nonnegative, so `Int.toNat`
is exact. -/
def parseSeparateTimeInputs (hoursInput minutesInput secondsInput : RawInput) :
    SeparateParseResult :=
  let hours := parseIndividualInput hoursInput "hours"
  let minutes := parseIndividualInput minutesInput "minutes"
  let seconds := parseIndividualInput secondsInput "seconds"
  let errors := rangeErrors hours.value minutes.value seconds.value
  let warnings := emptyWarnings hours.isEmpty minutes.isEmpty seconds.isEmpty
  if errors = [] then
    { isValid := true
    , time := some
        { hours := (if hours.value = 0 then 12 else hours.value).toNat
        , minutes := minutes.value.toNat
        , seconds := seconds.value.toNat }
    , errors := errors
    , warnings := warnings }
  else
    { isValid := false, time := none, errors := errors, warnings := warnings }

/-- Split a character list at every colon.  The anchored HH:MM:SS regex
of the source has no colon inside any group, so a full match is exactly
a split into three colon-free parts, each matching its group. -/
def splitOnColon : List Char → List (List Char)
  | [] => [[]]
  | c :: rest =>
    if c = ':' then [] :: splitOnColon rest
    else
      match splitOnColon rest with
      | [] => [[c]]
      | p :: ps => (c :: p) :: ps

/-- The first regex group, one digit or two digits below 24:
0-9, 00-19, or 20-23. -/
def hourGroupOk (l : List Char) : Bool :=
  match l with
  | [c] => isDigitChar c
  | [c1, c2] =>
    ((c1 = '0' || c1 = '1') && isDigitChar c2) || (c1 = '2' && ('0' ≤ c2 && c2 ≤ '3'))
  | _ => false

/-- The minute and second regex group: 0-9 or 00-59. -/
def minSecGroupOk (l : List Char) : Bool :=
  match l with
  | [c] => isDigitChar c
  | [c1, c2] => ('0' ≤ c1 && c1 ≤ '5') && isDigitChar c2
  | _ => false

/-- Anchored match of the time regex of the source validator, returning
the three captured groups. -/
def timePatternMatch (l : List Char) : Option (List Char × List Char × List Char) :=
  match splitOnColon l with
  | [hp, mp, sp] =>
    if hourGroupOk hp && minSecGroupOk mp && minSecGroupOk sp then some (hp, mp, sp)
    else none
  | _ => none

/-- Model of `parseTimeInput`: trim, match the time regex, `parseInt` each
captured group (a pure digit string, so the value is its decimal
reading and never negative — the negative-range checks of the source
cannot fire), then range check hours 1..12 and minutes/seconds 0..59.
A non-string or empty input returns null in the source; the empty
string also fails the regex here, with the same result. -/
def parseTimeInput (input : String) : Option ClockTime :=
  match timePatternMatch (trimChars input.data) with
  | none => none
  | some (hp, mp, sp) =>
    let hours := digitsToNat hp
    let minutes := digitsToNat mp
    let seconds := digitsToNat sp
    if hours < 1 ∨ hours > 12 ∨ minutes > 59 ∨ seconds > 59 then none
    else some { hours := hours, minutes := minutes, seconds := seconds }

/-- Model of `compareTime`: strict field-wise equality of the two time objects. -/
def compareTime (time1 time2 : ClockTime) : Bool :=
  time1.hours == time2.hours && time1.minutes == time2.minutes &&
    time1.seconds == time2.seconds

/-- Model of `padStart` to width two: left-pad with the zero character to length 2. -/
def padStart2 (l : List Char) : List Char :=
  if l.length < 2 then List.replicate (2 - l.length) '0' ++ l else l

/-- Decimal printing of a natural number, as JavaScript `toString`. -/
def natToChars (n : Nat) : List Char := Nat.toDigits 10 n

/-- Model of `formatTime`: the three fields zero-padded to two digits and joined
with colons. -/
def formatTime (time : ClockTime) : String :=
  ⟨padStart2 (natToChars time.hours) ++ ':' :: padStart2 (natToChars time.minutes) ++
    ':' :: padStart2 (natToChars time.seconds)⟩

/-- Substring test: `hasSubstr hay needle` is true when `needle` occurs
contiguously inside `hay`. -/
def hasSubstr (hay needle : List Char) : Bool :=
  match hay with
  | [] => needle.isEmpty
  | _ :: t => needle.isPrefixOf hay || hasSubstr t needle

/-- Result record of `validateAnswer`. -/
structure ValidationResult where
  isCorrect : Bool
  userTime : Option ClockTime
  correctTime : ClockTime
  message : String
  explanation : String
  encouragement : String
deriving Repr

/-- The fixed pool of success messages of `generateEncouragement`. -/
def successMessages : List String :=
  [ "🎉 太棒了！你完全掌握了时钟的读法！"
  , "⭐ 优秀！你的时间读取能力很强！"
  , "🏆 正确！你是时钟读取小能手！"
  , "👏 很好！继续保持这样的准确度！"
  , "🌟 完美！你对时钟的理解很到位！"
  , "🎯 精准！你的观察力很敏锐！"
  , "💪 厉害！时钟对你来说不是问题！"
  , "🚀 出色！你的学习进步很快！" ]

/-- The fixed pool of encouragement messages for wrong answers. -/
def encouragementMessages : List String :=
  [ "💪 别灰心！每次练习都是进步的机会！"
  , "🌱 没关系，学习需要过程，你正在进步中！"
  , "🎯 很接近了！再仔细观察一下指针的位置！"
  , "⭐ 不要放弃！多练习几次就会熟练了！"
  , "🔍 仔细看看解答过程，下次一定能做对！"
  , "📚 学习时钟需要耐心，你已经在正确的路上了！"
  , "🌟 每个错误都是学习的机会，继续加油！"
  , "🎈 相信自己！多观察多练习，你一定能掌握的！"
  , "🏃 继续努力！熟能生巧，你会越来越好的！"
  , "🎨 时钟读取是一门艺术，慢慢来，不着急！" ]

/-- Model of `generateEncouragement`: pick a pool entry with the injected random
draw `r` (the floor of a random multiple of the pool length is modelled
as `r` modulo the pool length). -/
def generateEncouragement (isCorrect : Bool) (r : Nat) : String :=
  if isCorrect then successMessages.getD (r % successMessages.length) ""
  else encouragementMessages.getD (r % encouragementMessages.length) ""

/-- The per-field difference analysis appended by `generateExplanation`
when the answer is wrong and a user time was given.  Each `+=` of the
source is one operand of the concatenation, in source order. -/
def userAnalysis (correctTime userTime : ClockTime) : String :=
  "\n你的答案分析：\n" ++ "你输入的时间是 " ++ formatTime userTime ++ "\n" ++
  (if userTime.hours ≠ correctTime.hours then
    "• 小时部分：你输入了 " ++ toString userTime.hours ++ "，正确答案是 " ++
      toString correctTime.hours ++ "\n" ++ "  提示：注意观察时针的位置，时针会随着分钟数慢慢移动\n"
  else "") ++
  (if userTime.minutes ≠ correctTime.minutes then
    "• 分钟部分：你输入了 " ++ toString userTime.minutes ++ "，正确答案是 " ++
      toString correctTime.minutes ++ "\n" ++ "  提示：分针指向的数字乘以5就是分钟数\n"
  else "") ++
  (if userTime.seconds ≠ correctTime.seconds then
    "• 秒数部分：你输入了 " ++ toString userTime.seconds ++ "，正确答案是 " ++
      toString correctTime.seconds ++ "\n" ++ "  提示：秒针指向的数字乘以5就是秒数\n"
  else "")

/-- The part of `generateExplanation` following the header that embeds
the formatted correct time: the hand-reading guide (the hour-hand
sentence is guarded by `hours <= 12` in the source, the second-hand
block by `seconds > 0`), the optional difference analysis, and the
learning hints. -/
def explanationTail (correctTime : ClockTime) (isCorrect : Bool)
    (userTime : Option ClockTime) : String :=
  "指针读取方法：\n" ++
  (if correctTime.hours ≤ 12 then
    "• 时针：指向 " ++ toString correctTime.hours ++ " 点" ++
      (if correctTime.minutes > 0 then
        "，并向前移动了 " ++ toString correctTime.minutes ++ " 分钟的距离"
      else "") ++ "\n"
  else "") ++
  "• 分针：指向 " ++ toString correctTime.minutes ++ " 分" ++
  (if correctTime.minutes = 0 then "（指向12的位置）"
   else if correctTime.minutes = 15 then "（指向3的位置）"
   else if correctTime.minutes = 30 then "（指向6的位置）"
   else if correctTime.minutes = 45 then "（指向9的位置）"
   else "") ++ "\n" ++
  (if correctTime.seconds > 0 then
    "• 秒针：指向 " ++ toString correctTime.seconds ++ " 秒" ++
      (if correctTime.seconds = 0 then "（指向12的位置）"
       else if correctTime.seconds = 15 then "（指向3的位置）"
       else if correctTime.seconds = 30 then "（指向6的位置）"
       else if correctTime.seconds = 45 then "（指向9的位置）"
       else "") ++ "\n"
  else "") ++
  (match userTime with
   | some ut => if !isCorrect then userAnalysis correctTime ut else ""
   | none => "") ++
  "\n💡 学习提示：\n" ++ "• 时针较短较粗，分针较长较细，秒针最细最长\n" ++
  "• 分针和秒针每格代表5分钟/5秒\n" ++ "• 时针会随着分钟数慢慢移动，不是突然跳跃的\n"

/-- Model of `generateExplanation`: header embedding the formatted correct time,
followed by the rest of the explanation.  The source accumulates into
one string with `+=`; here each appended piece is one operand of the
concatenation, in the same order. -/
def generateExplanation (correctTime : ClockTime) (isCorrect : Bool)
    (userTime : Option ClockTime) : String :=
  "正确答案解析：\n" ++ "时钟显示的时间是 " ++ formatTime correctTime ++ "\n\n" ++
    explanationTail correctTime isCorrect userTime

/-- Model of `validateAnswer`: parse the user string; on parse failure return the
format-error result; otherwise compare with the correct time and build
the result.  The draw `r` feeds the single random pool selection made
on the taken branch. -/
def validateAnswer (userInput : String) (correctTime : ClockTime) (r : Nat) :
    ValidationResult :=
  match parseTimeInput userInput with
  | none =>
    { isCorrect := false
    , userTime := none
    , correctTime := correctTime
    , message := "时间格式不正确，请使用 HH:MM:SS 格式"
    , explanation := "请检查输入格式，确保使用 HH:MM:SS 的格式，例如：03:30:00"
    , encouragement := generateEncouragement false r }
  | some parsedTime =>
    if compareTime parsedTime correctTime then
      { isCorrect := true
      , userTime := some parsedTime
      , correctTime := correctTime
      , message := "正确！"
      , explanation := generateExplanation correctTime true none
      , encouragement := generateEncouragement true r }
    else
      { isCorrect := false
      , userTime := some parsedTime
      , correctTime := correctTime
      , message := "答案不正确"
      , explanation := generateExplanation correctTime false (some parsedTime)
      , encouragement := generateEncouragement false r }

/-- The function `compareTime` decides field-wise equality of the two records. -/
theorem compareTime_eq_true_iff (a b : ClockTime) : compareTime a b = true ↔ a = b := by
  cases a; cases b
  simp [compareTime, and_assoc]

/-- C5: `compareTime a b` is true exactly when all three fields agree;
it is reflexive, symmetric, and exact (a single differing field, e.g.
seconds, already yields false). -/
theorem compareTime_exact (a b : ClockTime) :
    (compareTime a b = true ↔ a.hours = b.hours ∧ a.minutes = b.minutes ∧ a.seconds = b.seconds) ∧
    compareTime a a = true ∧
    compareTime a b = compareTime b a ∧
    (a.seconds ≠ b.seconds → compareTime a b = false) := by
  have hiff : ∀ x y : ClockTime, compareTime x y = true ↔ x = y := compareTime_eq_true_iff
  refine ⟨?_, (hiff a a).mpr rfl, ?_, ?_⟩
  · rw [hiff a b]
    cases a; cases b
    simp
  · by_cases h : a = b
    · subst h; rfl
    · have h1 : compareTime a b = false :=
        Bool.eq_false_iff.mpr (fun hc => h ((hiff a b).mp hc))
      have h2 : compareTime b a = false :=
        Bool.eq_false_iff.mpr (fun hc => h ((hiff b a).mp hc).symm)
      rw [h1, h2]
  · intro h
    exact Bool.eq_false_iff.mpr (fun hc => h (congrArg ClockTime.seconds ((hiff a b).mp hc)))

/-- Witness for C5 on a concrete pair differing only in seconds. -/
theorem compareTime_exact_witness :
    (compareTime ⟨3, 30, 0⟩ ⟨3, 30, 1⟩ = true ↔
      (3 : Nat) = 3 ∧ (30 : Nat) = 30 ∧ (0 : Nat) = 1) ∧
    compareTime ⟨3, 30, 0⟩ ⟨3, 30, 0⟩ = true ∧
    compareTime ⟨3, 30, 0⟩ ⟨3, 30, 1⟩ = compareTime ⟨3, 30, 1⟩ ⟨3, 30, 0⟩ ∧
    ((⟨3, 30, 0⟩ : ClockTime).seconds ≠ (⟨3, 30, 1⟩ : ClockTime).seconds →
      compareTime ⟨3, 30, 0⟩ ⟨3, 30, 1⟩ = false) :=
  compareTime_exact ⟨3, 30, 0⟩ ⟨3, 30, 1⟩

/-- Spec-side classification of an empty field input: null, undefined,
or a string whose trimmed content is empty. -/
def isEmptyJsInput : RawInput → Bool
  | .null => true
  | .undefined => true
  | i => (trimChars (jsString i)).isEmpty

/-- C8: `parseIndividualInput` is total over string, number, null and
undefined inputs: empty-like input gives value 0, empty and valid;
non-empty input that does not parse as a number gives value 0 and
invalid; input parsing to a number v gives value v and valid; a decimal
string is truncated toward zero. -/
theorem parseIndividualInput_classification (input : RawInput) (fieldName : String) :
    (isEmptyJsInput input = true →
      parseIndividualInput input fieldName =
        { value := 0, isEmpty := true, isValid := true, originalInput := input }) ∧
    (isEmptyJsInput input = false → parseIntJS (trimChars (jsString input)) = none →
      parseIndividualInput input fieldName =
        { value := 0, isEmpty := false, isValid := false, originalInput := input }) ∧
    (∀ v : Int, isEmptyJsInput input = false →
      parseIntJS (trimChars (jsString input)) = some v →
      parseIndividualInput input fieldName =
        { value := v, isEmpty := false, isValid := true, originalInput := input }) ∧
    (parseIndividualInput (.str "3.7") fieldName).value = 3 ∧
    (parseIndividualInput (.str "-3.7") fieldName).value = -3 := by
  refine ⟨?_, ?_, ?_, rfl, rfl⟩
  · intro hempty
    cases input with
    | null => rfl
    | undefined => rfl
    | str s =>
      simp only [isEmptyJsInput, List.isEmpty_iff] at hempty
      by_cases hs : s = ""
      · subst hs; rfl
      · simp only [parseIndividualInput]
        rw [if_neg (by simp [hs]), if_pos hempty]
    | num n =>
      simp only [isEmptyJsInput, List.isEmpty_iff] at hempty
      simp only [parseIndividualInput]
      rw [if_neg (by simp), if_pos hempty]
  · intro hempty hparse
    cases input with
    | null => simp [isEmptyJsInput] at hempty
    | undefined => simp [isEmptyJsInput] at hempty
    | str s =>
      have hne : trimChars (jsString (RawInput.str s)) ≠ [] := by
        intro h
        simp [isEmptyJsInput, h] at hempty
      have hs : s ≠ "" := by
        intro h; subst h; exact hne rfl
      simp only [parseIndividualInput]
      rw [if_neg (by simp [hs]), if_neg hne, hparse]
    | num n =>
      have hne : trimChars (jsString (RawInput.num n)) ≠ [] := by
        intro h
        simp [isEmptyJsInput, h] at hempty
      simp only [parseIndividualInput]
      rw [if_neg (by simp), if_neg hne, hparse]
  · intro v hempty hparse
    cases input with
    | null => simp [isEmptyJsInput] at hempty
    | undefined => simp [isEmptyJsInput] at hempty
    | str s =>
      have hne : trimChars (jsString (RawInput.str s)) ≠ [] := by
        intro h
        simp [isEmptyJsInput, h] at hempty
      have hs : s ≠ "" := by
        intro h; subst h; exact hne rfl
      simp only [parseIndividualInput]
      rw [if_neg (by simp [hs]), if_neg hne, hparse]
    | num n =>
      have hne : trimChars (jsString (RawInput.num n)) ≠ [] := by
        intro h
        simp [isEmptyJsInput, h] at hempty
      simp only [parseIndividualInput]
      rw [if_neg (by simp), if_neg hne, hparse]

/-- Witness for C8: the whitespace string is empty-like, "abc" fails to
parse, "12" parses to 12. -/
theorem parseIndividualInput_classification_witness :
    (isEmptyJsInput (.str "  ") = true →
      parseIndividualInput (.str "  ") "hours" =
        { value := 0, isEmpty := true, isValid := true, originalInput := .str "  " }) ∧
    (isEmptyJsInput (.str "  ") = false →
      parseIntJS (trimChars (jsString (.str "  "))) = none →
      parseIndividualInput (.str "  ") "hours" =
        { value := 0, isEmpty := false, isValid := false, originalInput := .str "  " }) ∧
    (∀ v : Int, isEmptyJsInput (.str "  ") = false →
      parseIntJS (trimChars (jsString (.str "  "))) = some v →
      parseIndividualInput (.str "  ") "hours" =
        { value := v, isEmpty := false, isValid := true, originalInput := .str "  " }) ∧
    (parseIndividualInput (.str "3.7") "hours").value = 3 ∧
    (parseIndividualInput (.str "-3.7") "hours").value = -3 :=
  parseIndividualInput_classification (.str "  ") "hours"

/-- Unfolding of `parseSeparateTimeInputs` into its error list, warning
list, and branch on errors. -/
theorem parseSeparateTimeInputs_eq (hoursInput minutesInput secondsInput : RawInput) :
    parseSeparateTimeInputs hoursInput minutesInput secondsInput =
      (if rangeErrors (parseIndividualInput hoursInput "hours").value
            (parseIndividualInput minutesInput "minutes").value
            (parseIndividualInput secondsInput "seconds").value = [] then
        { isValid := true
        , time := some
            { hours := (if (parseIndividualInput hoursInput "hours").value = 0 then 12
                else (parseIndividualInput hoursInput "hours").value).toNat
            , minutes := (parseIndividualInput minutesInput "minutes").value.toNat
            , seconds := (parseIndividualInput secondsInput "seconds").value.toNat }
        , errors := rangeErrors (parseIndividualInput hoursInput "hours").value
            (parseIndividualInput minutesInput "minutes").value
            (parseIndividualInput secondsInput "seconds").value
        , warnings := emptyWarnings (parseIndividualInput hoursInput "hours").isEmpty
            (parseIndividualInput minutesInput "minutes").isEmpty
            (parseIndividualInput secondsInput "seconds").isEmpty }
      else
        { isValid := false
        , time := none
        , errors := rangeErrors (parseIndividualInput hoursInput "hours").value
            (parseIndividualInput minutesInput "minutes").value
            (parseIndividualInput secondsInput "seconds").value
        , warnings := emptyWarnings (parseIndividualInput hoursInput "hours").isEmpty
            (parseIndividualInput minutesInput "minutes").isEmpty
            (parseIndividualInput secondsInput "seconds").isEmpty }) := rfl

/-- The error list is empty exactly when all three values are in range. -/
theorem rangeErrors_nil_iff (hv mv sv : Int) :
    rangeErrors hv mv sv = [] ↔
      0 ≤ hv ∧ hv ≤ 12 ∧ 0 ≤ mv ∧ mv ≤ 59 ∧ 0 ≤ sv ∧ sv ≤ 59 := by
  by_cases h1 : hv < 0 ∨ hv > 12 <;> by_cases h2 : mv < 0 ∨ mv > 59 <;>
    by_cases h3 : sv < 0 ∨ sv > 59 <;>
    simp [rangeErrors, h1, h2, h3] <;> omega

/-- An out-of-range hour value contributes its structured error. -/
theorem rangeErrors_hours_mem (hv mv sv : Int) (h : hv < 0 ∨ hv > 12) :
    (⟨"hours", "小时必须在0-12范围内", hv⟩ : FieldError) ∈ rangeErrors hv mv sv := by
  simp [rangeErrors, h]

/-- An out-of-range minute value contributes its structured error. -/
theorem rangeErrors_minutes_mem (hv mv sv : Int) (h : mv < 0 ∨ mv > 59) :
    (⟨"minutes", "分钟必须在0-59范围内", mv⟩ : FieldError) ∈ rangeErrors hv mv sv := by
  simp [rangeErrors, h]

/-- An out-of-range second value contributes its structured error. -/
theorem rangeErrors_seconds_mem (hv mv sv : Int) (h : sv < 0 ∨ sv > 59) :
    (⟨"seconds", "秒数必须在0-59范围内", sv⟩ : FieldError) ∈ rangeErrors hv mv sv := by
  simp [rangeErrors, h]

/-- With an in-range hour value, no error names the hours field. -/
theorem rangeErrors_no_hours (hv mv sv : Int) (h0 : 0 ≤ hv) (h12 : hv ≤ 12) :
    ∀ e ∈ rangeErrors hv mv sv, e.field ≠ "hours" := by
  intro e he
  have hh : ¬(hv < 0 ∨ hv > 12) := by omega
  simp only [rangeErrors, if_neg hh, List.nil_append, List.mem_append] at he
  rcases he with he | he
  · by_cases hc : mv < 0 ∨ mv > 59
    · simp [hc] at he; subst he
      show ("minutes" : String) ≠ "hours"
      decide
    · simp [hc] at he
  · by_cases hc : sv < 0 ∨ sv > 59
    · simp [hc] at he; subst he
      show ("seconds" : String) ≠ "hours"
      decide
    · simp [hc] at he

/-- The number of warnings naming each field is 1 when that field was
empty and 0 otherwise. -/
theorem emptyWarnings_counts (he me se : Bool) :
    ((emptyWarnings he me se).filter (fun w => w.field == "hours")).length
      = (if he then 1 else 0) ∧
    ((emptyWarnings he me se).filter (fun w => w.field == "minutes")).length
      = (if me then 1 else 0) ∧
    ((emptyWarnings he me se).filter (fun w => w.field == "seconds")).length
      = (if se then 1 else 0) := by
  cases he <;> cases me <;> cases se <;> decide

/-- With a non-empty hour input, no warning names the hours field. -/
theorem emptyWarnings_no_hours (me se : Bool) :
    ∀ w ∈ emptyWarnings false me se, w.field ≠ "hours" := by
  cases me <;> cases se <;> decide

/-- An empty field parses to value 0. -/
theorem parseIndividualInput_empty_value (input : RawInput) (fieldName : String)
    (h : (parseIndividualInput input fieldName).isEmpty = true) :
    (parseIndividualInput input fieldName).value = 0 := by
  revert h
  cases input with
  | null => intro _; rfl
  | undefined => intro _; rfl
  | str s =>
    simp only [parseIndividualInput]
    split
    · intro _; rfl
    · split
      · intro _; rfl
      · split <;> simp
  | num n =>
    simp only [parseIndividualInput]
    split
    · intro _; rfl
    · split
      · intro _; rfl
      · split <;> simp

/-- A field flagged invalid parses to value 0. -/
theorem parseIndividualInput_invalid_value (input : RawInput) (fieldName : String)
    (h : (parseIndividualInput input fieldName).isValid = false) :
    (parseIndividualInput input fieldName).value = 0 := by
  revert h
  cases input with
  | null => intro h; simp [parseIndividualInput] at h
  | undefined => intro h; simp [parseIndividualInput] at h
  | str s =>
    simp only [parseIndividualInput]
    split
    · simp
    · split
      · simp
      · split <;> simp
  | num n =>
    simp only [parseIndividualInput]
    split
    · simp
    · split
      · simp
      · split <;> simp

/-- The error list of the parse result, independent of the branch. -/
theorem parseSeparateTimeInputs_errors_eq (hi mi si : RawInput) :
    (parseSeparateTimeInputs hi mi si).errors =
      rangeErrors (parseIndividualInput hi "hours").value
        (parseIndividualInput mi "minutes").value
        (parseIndividualInput si "seconds").value := by
  rw [parseSeparateTimeInputs_eq]
  split <;> rfl

/-- The warning list of the parse result, independent of the branch. -/
theorem parseSeparateTimeInputs_warnings_eq (hi mi si : RawInput) :
    (parseSeparateTimeInputs hi mi si).warnings =
      emptyWarnings (parseIndividualInput hi "hours").isEmpty
        (parseIndividualInput mi "minutes").isEmpty
        (parseIndividualInput si "seconds").isEmpty := by
  rw [parseSeparateTimeInputs_eq]
  split <;> rfl

/-- C3: when any parsed field value is out of range, the separate-input
parser is invalid with no time object, and the error list carries a
structured entry (field name, message, offending value) for every
out-of-range field; in particular "13","0","0" is invalid with an error
on hours. -/
theorem parseSeparateTimeInputs_out_of_range (hr mr sr : String)
    (hout : (parseIndividualInput (.str hr) "hours").value < 0 ∨
      (parseIndividualInput (.str hr) "hours").value > 12 ∨
      (parseIndividualInput (.str mr) "minutes").value < 0 ∨
      (parseIndividualInput (.str mr) "minutes").value > 59 ∨
      (parseIndividualInput (.str sr) "seconds").value < 0 ∨
      (parseIndividualInput (.str sr) "seconds").value > 59) :
    (parseSeparateTimeInputs (.str hr) (.str mr) (.str sr)).isValid = false ∧
    (parseSeparateTimeInputs (.str hr) (.str mr) (.str sr)).time = none ∧
    ((parseIndividualInput (.str hr) "hours").value < 0 ∨
        (parseIndividualInput (.str hr) "hours").value > 12 →
      (⟨"hours", "小时必须在0-12范围内",
          (parseIndividualInput (.str hr) "hours").value⟩ : FieldError) ∈
        (parseSeparateTimeInputs (.str hr) (.str mr) (.str sr)).errors) ∧
    ((parseIndividualInput (.str mr) "minutes").value < 0 ∨
        (parseIndividualInput (.str mr) "minutes").value > 59 →
      (⟨"minutes", "分钟必须在0-59范围内",
          (parseIndividualInput (.str mr) "minutes").value⟩ : FieldError) ∈
        (parseSeparateTimeInputs (.str hr) (.str mr) (.str sr)).errors) ∧
    ((parseIndividualInput (.str sr) "seconds").value < 0 ∨
        (parseIndividualInput (.str sr) "seconds").value > 59 →
      (⟨"seconds", "秒数必须在0-59范围内",
          (parseIndividualInput (.str sr) "seconds").value⟩ : FieldError) ∈
        (parseSeparateTimeInputs (.str hr) (.str mr) (.str sr)).errors) ∧
    (parseSeparateTimeInputs (.str "13") (.str "0") (.str "0")).isValid = false ∧
    (⟨"hours", "小时必须在0-12范围内", 13⟩ : FieldError) ∈
      (parseSeparateTimeInputs (.str "13") (.str "0") (.str "0")).errors := by
  have hne : rangeErrors (parseIndividualInput (.str hr) "hours").value
      (parseIndividualInput (.str mr) "minutes").value
      (parseIndividualInput (.str sr) "seconds").value ≠ [] := by
    intro h
    have := (rangeErrors_nil_iff _ _ _).mp h
    omega
  have herr := parseSeparateTimeInputs_errors_eq (.str hr) (.str mr) (.str sr)
  constructor
  · rw [parseSeparateTimeInputs_eq (.str hr) (.str mr) (.str sr), if_neg hne]
  constructor
  · rw [parseSeparateTimeInputs_eq (.str hr) (.str mr) (.str sr), if_neg hne]
  refine ⟨?_, ?_, ?_, by decide, by decide⟩
  · intro h
    rw [herr]
    exact rangeErrors_hours_mem _ _ _ h
  · intro h
    rw [herr]
    exact rangeErrors_minutes_mem _ _ _ h
  · intro h
    rw [herr]
    exact rangeErrors_seconds_mem _ _ _ h

/-- Witness for C3 at the inputs "13","0","0". -/
theorem parseSeparateTimeInputs_out_of_range_witness :
    (parseSeparateTimeInputs (.str "13") (.str "0") (.str "0")).isValid = false ∧
    (parseSeparateTimeInputs (.str "13") (.str "0") (.str "0")).time = none ∧
    ((parseIndividualInput (.str "13") "hours").value < 0 ∨
        (parseIndividualInput (.str "13") "hours").value > 12 →
      (⟨"hours", "小时必须在0-12范围内",
          (parseIndividualInput (.str "13") "hours").value⟩ : FieldError) ∈
        (parseSeparateTimeInputs (.str "13") (.str "0") (.str "0")).errors) ∧
    ((parseIndividualInput (.str "0") "minutes").value < 0 ∨
        (parseIndividualInput (.str "0") "minutes").value > 59 →
      (⟨"minutes", "分钟必须在0-59范围内",
          (parseIndividualInput (.str "0") "minutes").value⟩ : FieldError) ∈
        (parseSeparateTimeInputs (.str "13") (.str "0") (.str "0")).errors) ∧
    ((parseIndividualInput (.str "0") "seconds").value < 0 ∨
        (parseIndividualInput (.str "0") "seconds").value > 59 →
      (⟨"seconds", "秒数必须在0-59范围内",
          (parseIndividualInput (.str "0") "seconds").value⟩ : FieldError) ∈
        (parseSeparateTimeInputs (.str "13") (.str "0") (.str "0")).errors) ∧
    (parseSeparateTimeInputs (.str "13") (.str "0") (.str "0")).isValid = false ∧
    (⟨"hours", "小时必须在0-12范围内", 13⟩ : FieldError) ∈
      (parseSeparateTimeInputs (.str "13") (.str "0") (.str "0")).errors :=
  parseSeparateTimeInputs_out_of_range "13" "0" "0" (by decide)

/-- C9: each empty field contributes exactly one warning naming that
field, an empty field counts as value 0, and warnings never block: when
all (defaulted) values pass the range checks the result is valid with
an assembled time; in particular "","30","15" is valid with one hours
warning and time 12:30:15. -/
theorem parseSeparateTimeInputs_empty_field_warnings (hi mi si : RawInput) :
    (((parseSeparateTimeInputs hi mi si).warnings.filter
        (fun w => w.field == "hours")).length
      = if (parseIndividualInput hi "hours").isEmpty then 1 else 0) ∧
    (((parseSeparateTimeInputs hi mi si).warnings.filter
        (fun w => w.field == "minutes")).length
      = if (parseIndividualInput mi "minutes").isEmpty then 1 else 0) ∧
    (((parseSeparateTimeInputs hi mi si).warnings.filter
        (fun w => w.field == "seconds")).length
      = if (parseIndividualInput si "seconds").isEmpty then 1 else 0) ∧
    ((parseIndividualInput hi "hours").isEmpty = true →
      (parseIndividualInput hi "hours").value = 0) ∧
    ((parseIndividualInput mi "minutes").isEmpty = true →
      (parseIndividualInput mi "minutes").value = 0) ∧
    ((parseIndividualInput si "seconds").isEmpty = true →
      (parseIndividualInput si "seconds").value = 0) ∧
    (0 ≤ (parseIndividualInput hi "hours").value →
     (parseIndividualInput hi "hours").value ≤ 12 →
     0 ≤ (parseIndividualInput mi "minutes").value →
     (parseIndividualInput mi "minutes").value ≤ 59 →
     0 ≤ (parseIndividualInput si "seconds").value →
     (parseIndividualInput si "seconds").value ≤ 59 →
      (parseSeparateTimeInputs hi mi si).isValid = true ∧
      (parseSeparateTimeInputs hi mi si).time = some
        { hours := (if (parseIndividualInput hi "hours").value = 0 then 12
            else (parseIndividualInput hi "hours").value).toNat
        , minutes := (parseIndividualInput mi "minutes").value.toNat
        , seconds := (parseIndividualInput si "seconds").value.toNat }) ∧
    parseSeparateTimeInputs (.str "") (.str "30") (.str "15") =
      { isValid := true
      , time := some ⟨12, 30, 15⟩
      , errors := []
      , warnings := [⟨"hours", "小时输入为空，按0处理"⟩] } := by
  have hw := parseSeparateTimeInputs_warnings_eq hi mi si
  obtain ⟨c1, c2, c3⟩ := emptyWarnings_counts (parseIndividualInput hi "hours").isEmpty
    (parseIndividualInput mi "minutes").isEmpty (parseIndividualInput si "seconds").isEmpty
  refine ⟨by rw [hw]; exact c1, by rw [hw]; exact c2, by rw [hw]; exact c3,
    parseIndividualInput_empty_value hi "hours",
    parseIndividualInput_empty_value mi "minutes",
    parseIndividualInput_empty_value si "seconds", ?_, by decide⟩
  intro b1 b2 b3 b4 b5 b6
  have hnil : rangeErrors (parseIndividualInput hi "hours").value
      (parseIndividualInput mi "minutes").value
      (parseIndividualInput si "seconds").value = [] :=
    (rangeErrors_nil_iff _ _ _).mpr ⟨b1, b2, b3, b4, b5, b6⟩
  rw [parseSeparateTimeInputs_eq hi mi si, if_pos hnil]
  exact ⟨rfl, rfl⟩

/-- Witness for C9 at the inputs "","30","15". -/
theorem parseSeparateTimeInputs_empty_field_warnings_witness :
    (((parseSeparateTimeInputs (.str "") (.str "30") (.str "15")).warnings.filter
        (fun w => w.field == "hours")).length
      = if (parseIndividualInput (.str "") "hours").isEmpty then 1 else 0) ∧
    (((parseSeparateTimeInputs (.str "") (.str "30") (.str "15")).warnings.filter
        (fun w => w.field == "minutes")).length
      = if (parseIndividualInput (.str "30") "minutes").isEmpty then 1 else 0) ∧
    (((parseSeparateTimeInputs (.str "") (.str "30") (.str "15")).warnings.filter
        (fun w => w.field == "seconds")).length
      = if (parseIndividualInput (.str "15") "seconds").isEmpty then 1 else 0) ∧
    ((parseIndividualInput (.str "") "hours").isEmpty = true →
      (parseIndividualInput (.str "") "hours").value = 0) ∧
    ((parseIndividualInput (.str "30") "minutes").isEmpty = true →
      (parseIndividualInput (.str "30") "minutes").value = 0) ∧
    ((parseIndividualInput (.str "15") "seconds").isEmpty = true →
      (parseIndividualInput (.str "15") "seconds").value = 0) ∧
    (0 ≤ (parseIndividualInput (.str "") "hours").value →
     (parseIndividualInput (.str "") "hours").value ≤ 12 →
     0 ≤ (parseIndividualInput (.str "30") "minutes").value →
     (parseIndividualInput (.str "30") "minutes").value ≤ 59 →
     0 ≤ (parseIndividualInput (.str "15") "seconds").value →
     (parseIndividualInput (.str "15") "seconds").value ≤ 59 →
      (parseSeparateTimeInputs (.str "") (.str "30") (.str "15")).isValid = true ∧
      (parseSeparateTimeInputs (.str "") (.str "30") (.str "15")).time = some
        { hours := (if (parseIndividualInput (.str "") "hours").value = 0 then 12
            else (parseIndividualInput (.str "") "hours").value).toNat
        , minutes := (parseIndividualInput (.str "30") "minutes").value.toNat
        , seconds := (parseIndividualInput (.str "15") "seconds").value.toNat }) ∧
    parseSeparateTimeInputs (.str "") (.str "30") (.str "15") =
      { isValid := true
      , time := some ⟨12, 30, 15⟩
      , errors := []
      , warnings := [⟨"hours", "小时输入为空，按0处理"⟩] } :=
  parseSeparateTimeInputs_empty_field_warnings (.str "") (.str "30") (.str "15")

/-- C10 (implicit): a non-empty input that fails numeric parsing is
silently treated as 0: it contributes no error and no warning for its
field, and when the other fields are in range the submission is valid,
a failed hours parse yielding hours normalized to 12.  The parse
failure flag is never consulted by `parseSeparateTimeInputs`. -/
theorem parseSeparateTimeInputs_ignores_invalid_flag (hi mi si : RawInput)
    (h1 : (parseIndividualInput hi "hours").isEmpty = false)
    (h2 : (parseIndividualInput hi "hours").isValid = false) :
    (∀ e ∈ (parseSeparateTimeInputs hi mi si).errors, e.field ≠ "hours") ∧
    (∀ w ∈ (parseSeparateTimeInputs hi mi si).warnings, w.field ≠ "hours") ∧
    (0 ≤ (parseIndividualInput mi "minutes").value →
     (parseIndividualInput mi "minutes").value ≤ 59 →
     0 ≤ (parseIndividualInput si "seconds").value →
     (parseIndividualInput si "seconds").value ≤ 59 →
      (parseSeparateTimeInputs hi mi si).isValid = true ∧
      (parseSeparateTimeInputs hi mi si).time = some
        { hours := 12
        , minutes := (parseIndividualInput mi "minutes").value.toNat
        , seconds := (parseIndividualInput si "seconds").value.toNat }) := by
  have hv0 : (parseIndividualInput hi "hours").value = 0 :=
    parseIndividualInput_invalid_value hi "hours" h2
  refine ⟨?_, ?_, ?_⟩
  · rw [parseSeparateTimeInputs_errors_eq hi mi si, hv0]
    exact rangeErrors_no_hours 0 _ _ (by omega) (by omega)
  · rw [parseSeparateTimeInputs_warnings_eq hi mi si, h1]
    exact emptyWarnings_no_hours _ _
  · intro b1 b2 b3 b4
    have hnil : rangeErrors (parseIndividualInput hi "hours").value
        (parseIndividualInput mi "minutes").value
        (parseIndividualInput si "seconds").value = [] := by
      rw [hv0]
      exact (rangeErrors_nil_iff _ _ _).mpr ⟨by omega, by omega, b1, b2, b3, b4⟩
    rw [parseSeparateTimeInputs_eq hi mi si, if_pos hnil]
    refine ⟨rfl, ?_⟩
    rw [hv0]
    rfl

/-- Witness for C10 with hours "abc", minutes "30", seconds "15". -/
theorem parseSeparateTimeInputs_ignores_invalid_flag_witness :
    (∀ e ∈ (parseSeparateTimeInputs (.str "abc") (.str "30") (.str "15")).errors,
      e.field ≠ "hours") ∧
    (∀ w ∈ (parseSeparateTimeInputs (.str "abc") (.str "30") (.str "15")).warnings,
      w.field ≠ "hours") ∧
    (0 ≤ (parseIndividualInput (.str "30") "minutes").value →
     (parseIndividualInput (.str "30") "minutes").value ≤ 59 →
     0 ≤ (parseIndividualInput (.str "15") "seconds").value →
     (parseIndividualInput (.str "15") "seconds").value ≤ 59 →
      (parseSeparateTimeInputs (.str "abc") (.str "30") (.str "15")).isValid = true ∧
      (parseSeparateTimeInputs (.str "abc") (.str "30") (.str "15")).time = some
        { hours := 12
        , minutes := (parseIndividualInput (.str "30") "minutes").value.toNat
        , seconds := (parseIndividualInput (.str "15") "seconds").value.toNat }) :=
  parseSeparateTimeInputs_ignores_invalid_flag (.str "abc") (.str "30") (.str "15")
    (by decide) (by decide)

/-- C4: the separate-fields pathway accepts hour 0 and normalizes it to
12 ("0","0","0" gives the valid time 12:00:00), while the string
pathway `parseTimeInput` never yields an hour outside 1..12 and rejects
any HH:MM:SS string whose hour field is 0. -/
theorem hour_zero_pathway_disagreement :
    (parseSeparateTimeInputs (.str "0") (.str "0") (.str "0")).isValid = true ∧
    (parseSeparateTimeInputs (.str "0") (.str "0") (.str "0")).time = some ⟨12, 0, 0⟩ ∧
    (∀ (input : String) (t : ClockTime), parseTimeInput input = some t →
      1 ≤ t.hours ∧ t.hours ≤ 12) ∧
    parseTimeInput "0:30:00" = none ∧
    parseTimeInput "00:30:00" = none := by
  refine ⟨by decide, by decide, ?_, by decide, by decide⟩
  intro input t h
  unfold parseTimeInput at h
  rcases hm : timePatternMatch (trimChars input.data) with _ | ⟨hp, mp, sp⟩
  · simp [hm] at h
  · simp only [hm] at h
    split at h
    · exact absurd h (by simp)
    · rename_i hcond
      have h' := Option.some.inj h
      subst h'
      constructor
      · show 1 ≤ digitsToNat hp
        omega
      · show digitsToNat hp ≤ 12
        omega

/-- Witness for C4: "12:00:00" parses and its hour is within 1..12. -/
theorem hour_zero_pathway_disagreement_witness :
    parseTimeInput "12:00:00" = some ⟨12, 0, 0⟩ ∧
    (1 ≤ (⟨12, 0, 0⟩ : ClockTime).hours ∧ (⟨12, 0, 0⟩ : ClockTime).hours ≤ 12) :=
  ⟨by decide, hour_zero_pathway_disagreement.2.2.1 "12:00:00" ⟨12, 0, 0⟩ (by decide)⟩

/-- Auxiliary decidable fact: for every value below 60, the zero-padded
decimal rendering is the two expected digit characters, matches the
minute/second regex group, reads back to the value, and contains
neither a colon nor whitespace. -/
theorem pad2_minsec_fin : ∀ n : Fin 60,
    minSecGroupOk (padStart2 (natToChars n.val)) = true ∧
    digitsToNat (padStart2 (natToChars n.val)) = n.val ∧
    padStart2 (natToChars n.val) =
      [Nat.digitChar (n.val / 10), Nat.digitChar (n.val % 10)] ∧
    (∀ c ∈ padStart2 (natToChars n.val), c ≠ ':' ∧ isJsWhitespace c = false) := by
  decide

/-- Auxiliary decidable fact: the same for hour values up to 12 against
the hour regex group. -/
theorem pad2_hour_fin : ∀ n : Fin 13,
    hourGroupOk (padStart2 (natToChars n.val)) = true ∧
    digitsToNat (padStart2 (natToChars n.val)) = n.val ∧
    padStart2 (natToChars n.val) =
      [Nat.digitChar (n.val / 10), Nat.digitChar (n.val % 10)] ∧
    (∀ c ∈ padStart2 (natToChars n.val), c ≠ ':' ∧ isJsWhitespace c = false) := by
  decide

/-- The padded minute/second rendering for a bounded natural number. -/
theorem pad2_minsec_bounded (n : Nat) (hn : n ≤ 59) :
    minSecGroupOk (padStart2 (natToChars n)) = true ∧
    digitsToNat (padStart2 (natToChars n)) = n ∧
    padStart2 (natToChars n) = [Nat.digitChar (n / 10), Nat.digitChar (n % 10)] ∧
    (∀ c ∈ padStart2 (natToChars n), c ≠ ':' ∧ isJsWhitespace c = false) :=
  pad2_minsec_fin ⟨n, by omega⟩

/-- The padded hour rendering for a bounded natural number. -/
theorem pad2_hour_bounded (n : Nat) (hn : n ≤ 12) :
    hourGroupOk (padStart2 (natToChars n)) = true ∧
    digitsToNat (padStart2 (natToChars n)) = n ∧
    padStart2 (natToChars n) = [Nat.digitChar (n / 10), Nat.digitChar (n % 10)] ∧
    (∀ c ∈ padStart2 (natToChars n), c ≠ ':' ∧ isJsWhitespace c = false) :=
  pad2_hour_fin ⟨n, by omega⟩

/-- Splitting a list that starts with a colon-free part followed by a
colon peels off that part. -/
theorem splitOnColon_append (a rest : List Char) (ha : ∀ c ∈ a, c ≠ ':') :
    splitOnColon (a ++ ':' :: rest) = a :: splitOnColon rest := by
  induction a with
  | nil => simp [splitOnColon]
  | cons c cs ih =>
    have hc : c ≠ ':' := ha c (by simp)
    have ih' := ih (fun x hx => ha x (by simp [hx]))
    simp [splitOnColon, hc, ih']

/-- A colon-free list splits into itself alone. -/
theorem splitOnColon_single (a : List Char) (ha : ∀ c ∈ a, c ≠ ':') :
    splitOnColon a = [a] := by
  induction a with
  | nil => rfl
  | cons c cs ih =>
    have hc : c ≠ ':' := ha c (by simp)
    have ih' := ih (fun x hx => ha x (by simp [hx]))
    simp [splitOnColon, hc, ih']

/-- dropWhile is the identity when no element satisfies the predicate. -/
theorem dropWhile_all_false (p : Char → Bool) (l : List Char)
    (h : ∀ c ∈ l, p c = false) : l.dropWhile p = l := by
  cases l with
  | nil => rfl
  | cons a t =>
    rw [List.dropWhile_cons]
    simp [h a (by simp)]

/-- Trimming is the identity on whitespace-free content. -/
theorem trimChars_no_ws (l : List Char) (h : ∀ c ∈ l, isJsWhitespace c = false) :
    trimChars l = l := by
  unfold trimChars
  rw [dropWhile_all_false _ l h,
    dropWhile_all_false _ _ (fun c hc => h c (List.mem_reverse.mp hc)),
    List.reverse_reverse]

/-- C6: for a valid time, `formatTime` is the zero-padded two-digit
HH:MM:SS rendering, `parseTimeInput` reads that string back to the same
time, and formatting again reproduces the same string. -/
theorem formatTime_parse_roundtrip (t : ClockTime) (h1 : 1 ≤ t.hours) (h2 : t.hours ≤ 12)
    (h3 : t.minutes ≤ 59) (h4 : t.seconds ≤ 59) :
    (formatTime t).data =
      [Nat.digitChar (t.hours / 10), Nat.digitChar (t.hours % 10), ':',
       Nat.digitChar (t.minutes / 10), Nat.digitChar (t.minutes % 10), ':',
       Nat.digitChar (t.seconds / 10), Nat.digitChar (t.seconds % 10)] ∧
    parseTimeInput (formatTime t) = some t ∧
    (parseTimeInput (formatTime t)).map formatTime = some (formatTime t) := by
  obtain ⟨hok, hval, hform, hchars⟩ := pad2_hour_bounded t.hours h2
  obtain ⟨mok, mval, mform, mchars⟩ := pad2_minsec_bounded t.minutes h3
  obtain ⟨sok, sval, sform, schars⟩ := pad2_minsec_bounded t.seconds h4
  have hdata : (formatTime t).data =
      padStart2 (natToChars t.hours) ++
        ':' :: (padStart2 (natToChars t.minutes) ++ ':' :: padStart2 (natToChars t.seconds)) := by
    dsimp only [formatTime]
    simp only [List.cons_append, List.append_assoc]
  have hws : ∀ c ∈ padStart2 (natToChars t.hours) ++
      ':' :: (padStart2 (natToChars t.minutes) ++ ':' :: padStart2 (natToChars t.seconds)),
      isJsWhitespace c = false := by
    intro c hc
    simp only [List.mem_append, List.mem_cons] at hc
    rcases hc with hc | rfl | hc | rfl | hc
    · exact (hchars c hc).2
    · decide
    · exact (mchars c hc).2
    · decide
    · exact (schars c hc).2
  have hsplit : splitOnColon (trimChars (formatTime t).data) =
      [padStart2 (natToChars t.hours), padStart2 (natToChars t.minutes),
        padStart2 (natToChars t.seconds)] := by
    rw [hdata, trimChars_no_ws _ hws,
      splitOnColon_append _ _ (fun c hc => (hchars c hc).1),
      splitOnColon_append _ _ (fun c hc => (mchars c hc).1),
      splitOnColon_single _ (fun c hc => (schars c hc).1)]
  have hmatch : timePatternMatch (trimChars (formatTime t).data) =
      some (padStart2 (natToChars t.hours), padStart2 (natToChars t.minutes),
        padStart2 (natToChars t.seconds)) := by
    unfold timePatternMatch
    rw [hsplit]
    simp [hok, mok, sok]
  have hparse : parseTimeInput (formatTime t) = some t := by
    unfold parseTimeInput
    rw [hmatch]
    show (if digitsToNat (padStart2 (natToChars t.hours)) < 1 ∨
        digitsToNat (padStart2 (natToChars t.hours)) > 12 ∨
        digitsToNat (padStart2 (natToChars t.minutes)) > 59 ∨
        digitsToNat (padStart2 (natToChars t.seconds)) > 59 then none
      else some
        { hours := digitsToNat (padStart2 (natToChars t.hours))
        , minutes := digitsToNat (padStart2 (natToChars t.minutes))
        , seconds := digitsToNat (padStart2 (natToChars t.seconds)) }) = some t
    rw [hval, mval, sval, if_neg (by omega)]
  refine ⟨?_, hparse, by rw [hparse]; rfl⟩
  rw [hdata, hform, mform, sform]
  rfl

/-- Witness for C6 at the time 3:30:00. -/
theorem formatTime_parse_roundtrip_witness :
    (formatTime ⟨3, 30, 0⟩).data =
      [Nat.digitChar ((⟨3, 30, 0⟩ : ClockTime).hours / 10),
       Nat.digitChar ((⟨3, 30, 0⟩ : ClockTime).hours % 10), ':',
       Nat.digitChar ((⟨3, 30, 0⟩ : ClockTime).minutes / 10),
       Nat.digitChar ((⟨3, 30, 0⟩ : ClockTime).minutes % 10), ':',
       Nat.digitChar ((⟨3, 30, 0⟩ : ClockTime).seconds / 10),
       Nat.digitChar ((⟨3, 30, 0⟩ : ClockTime).seconds % 10)] ∧
    parseTimeInput (formatTime ⟨3, 30, 0⟩) = some ⟨3, 30, 0⟩ ∧
    (parseTimeInput (formatTime ⟨3, 30, 0⟩)).map formatTime =
      some (formatTime ⟨3, 30, 0⟩) :=
  formatTime_parse_roundtrip ⟨3, 30, 0⟩ (by decide) (by decide) (by decide) (by decide)

/-- String concatenation concatenates the underlying character lists. -/
theorem data_append (a b : String) : (a ++ b).data = a.data ++ b.data := rfl

/-- A list is a prefix of itself followed by anything. -/
theorem isPrefixOf_self_append (a b : List Char) : a.isPrefixOf (a ++ b) = true := by
  induction a with
  | nil => cases b <;> rfl
  | cons c t ih => simp [List.isPrefixOf, List.cons_append, ih]

/-- A needle that is a prefix of the haystack occurs as a substring. -/
theorem hasSubstr_of_prefixTrue (hay needle : List Char)
    (h : needle.isPrefixOf hay = true) : hasSubstr hay needle = true := by
  cases hay with
  | nil =>
    cases needle with
    | nil => rfl
    | cons c t => simp [List.isPrefixOf] at h
  | cons a t => simp [hasSubstr, h]

/-- A needle occurs as a substring wherever it appears between two
surrounding parts. -/
theorem hasSubstr_of_append (pre needle post : List Char) :
    hasSubstr (pre ++ needle ++ post) needle = true := by
  induction pre with
  | nil =>
    simp only [List.nil_append]
    exact hasSubstr_of_prefixTrue _ _ (isPrefixOf_self_append needle post)
  | cons c t ih =>
    show (needle.isPrefixOf (c :: (t ++ needle ++ post)) ||
      hasSubstr (t ++ needle ++ post) needle) = true
    rw [ih]
    simp

/-- C7 counterexample: for the user answer 03:31:00 against the correct
time 3:30:00, the validator result has the fixed not-correct message,
but that message does not contain the formatted correct time 03:30:00
(the formatted time appears in the explanation field instead). -/
theorem validateAnswer_message_lacks_time :
    compareTime ⟨3, 31, 0⟩ ⟨3, 30, 0⟩ = false ∧
    (validateAnswer "03:31:00" ⟨3, 30, 0⟩ 0).isCorrect = false ∧
    (validateAnswer "03:31:00" ⟨3, 30, 0⟩ 0).message = "答案不正确" ∧
    hasSubstr (validateAnswer "03:31:00" ⟨3, 30, 0⟩ 0).message.data
      (formatTime ⟨3, 30, 0⟩).data = false := by
  refine ⟨by decide, by decide, by decide, by decide⟩

/-- C7 (amended): whenever the user input parses to a time differing
from the correct time, `validateAnswer` returns isCorrect false with
the fixed not-correct message, and the explanation contains the correct
time formatted as zero-padded HH:MM:SS. -/
theorem validateAnswer_incorrect_explanation (input : String) (ct ut : ClockTime) (r : Nat)
    (hp : parseTimeInput input = some ut) (hne : compareTime ut ct = false) :
    (validateAnswer input ct r).isCorrect = false ∧
    (validateAnswer input ct r).message = "答案不正确" ∧
    hasSubstr (validateAnswer input ct r).explanation.data (formatTime ct).data = true := by
  have hva : validateAnswer input ct r =
      { isCorrect := false
      , userTime := some ut
      , correctTime := ct
      , message := "答案不正确"
      , explanation := generateExplanation ct false (some ut)
      , encouragement := generateEncouragement false r } := by
    unfold validateAnswer
    rw [hp]
    simp only [hne, Bool.false_eq_true, if_false]
  rw [hva]
  refine ⟨rfl, rfl, ?_⟩
  show hasSubstr (generateExplanation ct false (some ut)).data (formatTime ct).data = true
  have hexp : (generateExplanation ct false (some ut)).data =
      ("正确答案解析：\n" ++ "时钟显示的时间是 ").data ++ (formatTime ct).data ++
        ("\n\n" ++ explanationTail ct false (some ut)).data := by
    simp [generateExplanation, data_append, List.append_assoc]
  rw [hexp]
  exact hasSubstr_of_append _ _ _

/-- Witness for the amended C7 at the inputs of the counterexample. -/
theorem validateAnswer_incorrect_explanation_witness :
    (validateAnswer "03:31:00" ⟨3, 30, 0⟩ 0).isCorrect = false ∧
    (validateAnswer "03:31:00" ⟨3, 30, 0⟩ 0).message = "答案不正确" ∧
    hasSubstr (validateAnswer "03:31:00" ⟨3, 30, 0⟩ 0).explanation.data
      (formatTime ⟨3, 30, 0⟩).data = true :=
  validateAnswer_incorrect_explanation "03:31:00" ⟨3, 30, 0⟩ ⟨3, 31, 0⟩ 0
    (by decide) (by decide)
